import Mathlib

/-!
Verification development for the rs1500 hotel-booking backend.

We shallowly embed the OTP issuance/verification flow (accounts/utils.py,
accounts/views.py, hotels/views.py partner OTP views) and the hotel approval
workflow (hotels/views.py) as executable Lean definitions, and prove the
spec's claims about them.  Randomness (OTP draw, salt) and the wall clock are
passed as explicit inputs; the SHA-256 digest is an abstract parameter
`hashFn : String → String` applied to `salt ++ otp`, exactly mirroring
`hashlib.sha256((salt + otp).encode()).hexdigest()`.
-/

namespace RS1500

/-- Generic finite-map update on stores keyed by strings (models a keyed
database row write / delete). -/
def updFun {α : Type} (f : String → Option α) (k : String) (v : Option α) :
    String → Option α :=
  fun e => if e = k then v else f e

/-! ## OTP data model (accounts/models.py `EmailOTP`) -/

/-- One row of the `EmailOTP` table. -/
structure EmailOTP where
  email : String
  otp_hash : String
  salt : String
  created_at : Nat
  expires_at : Nat
  attempts : Nat
  used : Bool
deriving DecidableEq, Repr

/-- `EmailOTP.is_expired`: `timezone.now() > self.expires_at`. -/
def EmailOTP.is_expired (r : EmailOTP) (now : Nat) : Bool :=
  decide (r.expires_at < now)

/-- The OTP table, keyed by email.  `create_otp_record` upserts with
`update_or_create(email=email, ...)`, so at most one row exists per email. -/
abbrev OTPStore := String → Option EmailOTP

/-- `accounts/utils.py hash_otp`: digest of `salt + otp` under the abstract
hash function. -/
def hash_otp (hashFn : String → String) (otp salt : String) : String :=
  hashFn (salt ++ otp)

/-- `accounts/utils.py create_otp_record`: upsert the row for `email`,
overwriting hash, salt, expiry, attempts and used; `created_at` is
`auto_now_add` so it is kept on update and set only on insert.  The freshly
drawn `otp` and `salt` are inputs here (the source draws them with
`secrets`).  Returns the stored record and the updated table. -/
def create_otp_record (hashFn : String → String) (store : OTPStore)
    (email otp salt : String) (now : Nat) (expiry_minutes : Nat) :
    EmailOTP × OTPStore :=
  let otp_hash := hash_otp hashFn otp salt
  let expires_at := now + expiry_minutes * 60
  let record : EmailOTP :=
    match store email with
    | some old =>
        { old with otp_hash := otp_hash, salt := salt, expires_at := expires_at,
                   attempts := 0, used := false }
    | none =>
        { email := email, otp_hash := otp_hash, salt := salt, created_at := now,
          expires_at := expires_at, attempts := 0, used := false }
  (record, updFun store email (some record))

/-! ## OTP verification (accounts/views.py `VerifyRegisterOTPView.post`,
hotels/views.py `HotelPartnerVerifyOTPView.create`) -/

/-- The four outcomes a verify endpoint can produce.  `invalidEmail` is the
"no user" branch, `invalidOrExpired` the record-precondition branch,
`invalidOtp` the hash-mismatch branch. -/
inductive VerifyOutcome where
  | invalidEmail
  | invalidOrExpired
  | invalidOtp
  | success
deriving DecidableEq, Repr

/-- The `detail` string of the JSON response for each outcome of
`VerifyRegisterOTPView.post`. -/
def VerifyOutcome.detail : VerifyOutcome → String
  | .invalidEmail => "Invalid email or OTP."
  | .invalidOrExpired => "Invalid or expired OTP."
  | .invalidOtp => "Invalid OTP."
  | .success => "OTP verified. Account activated."

/-- The HTTP status attached to each outcome (200 on success, 400 on every
failure, in both verify views). -/
def VerifyOutcome.status : VerifyOutcome → Nat
  | .success => 200
  | _ => 400

/-- `VerifyRegisterOTPView.post` (accounts/views.py): look up the latest
record for the email (unique thanks to the upsert), check user existence,
then the four preconditions, then compare hashes; mutate the record on the
comparison branches only.  `userExists` abstracts
`User.objects.filter(email=email).first()`. -/
def verifyRegisterOtp (hashFn : String → String) (store : OTPStore)
    (userExists : Bool) (email otp : String) (now : Nat) :
    VerifyOutcome × OTPStore :=
  if userExists = false then (.invalidEmail, store)
  else
    match store email with
    | none => (.invalidOrExpired, store)
    | some record =>
      if record.used ∨ record.is_expired now ∨ 5 ≤ record.attempts then
        (.invalidOrExpired, store)
      else if hash_otp hashFn otp record.salt = record.otp_hash then
        (.success, updFun store email (some { record with used := true }))
      else
        (.invalidOtp, updFun store email (some { record with attempts := record.attempts + 1 }))

/-- `HotelPartnerVerifyOTPView.create` (hotels/views.py): identical OTP
logic, with the email lowercased on entry and the user lookup requiring a
linked hotel account (`hotelUserExists`). -/
def hotelPartnerVerifyOtp (hashFn : String → String) (store : OTPStore)
    (hotelUserExists : Bool) (email otp : String) (now : Nat) :
    VerifyOutcome × OTPStore :=
  let e := email.toLower
  if hotelUserExists = false then (.invalidEmail, store)
  else
    match store e with
    | none => (.invalidOrExpired, store)
    | some record =>
      if record.used ∨ record.is_expired now ∨ 5 ≤ record.attempts then
        (.invalidOrExpired, store)
      else if hash_otp hashFn otp record.salt = record.otp_hash then
        (.success, updFun store e (some { record with used := true }))
      else
        (.invalidOtp, updFun store e (some { record with attempts := record.attempts + 1 }))

/-! ## OTP issuance endpoints (accounts/views.py `RequestRegisterView.post`,
hotels/views.py `HotelPartnerRequestOTPView.create`) -/

/-- The slice of a `User` row the OTP flow touches. -/
structure UserRec where
  is_active : Bool
deriving DecidableEq, Repr

/-- The persistent state the registration endpoints touch: users keyed by
email, plus the OTP table. -/
structure AccountsState where
  users : String → Option UserRec
  otps : OTPStore

/-- `RequestRegisterView.post`: look the user up by email; if absent, create
an inactive user; upsert the OTP record (expiry 2 minutes); send the mail.
On a mail exception, `user.delete()` runs — on whichever user object the
handler holds, newly created or pre-existing — and a 500 is returned.
`mailOk` abstracts whether `send_mail` raised. -/
def requestRegisterOtp (hashFn : String → String) (st : AccountsState)
    (email otp salt : String) (now : Nat) (mailOk : Bool) :
    Nat × AccountsState :=
  let usersAfterCreate :=
    match st.users email with
    | some _ => st.users
    | none => updFun st.users email (some { is_active := false })
  let otps2 := (create_otp_record hashFn st.otps email otp salt now 2).2
  if mailOk then (200, { users := usersAfterCreate, otps := otps2 })
  else (500, { users := updFun usersAfterCreate email none, otps := otps2 })

/-- `HotelPartnerRequestOTPView.create`: requires a user with a linked hotel
account (else 400); upserts the OTP record (expiry 2 minutes) and then sends
the mail; a mail exception yields a 500 with no compensation, the fresh
record stays in place. -/
def hotelPartnerRequestOtp (hashFn : String → String) (otps : OTPStore)
    (hotelUserExists : Bool) (email otp salt : String) (now : Nat)
    (mailOk : Bool) : Nat × OTPStore :=
  let e := email.toLower
  if hotelUserExists = false then (400, otps)
  else
    let otps2 := (create_otp_record hashFn otps e otp salt now 2).2
    if mailOk then (200, otps2) else (500, otps2)

/-! ## Hotel data model and approval workflow (hotels/views.py) -/

/-- The policy record fields consulted by the completeness checklist. -/
structure HotelPolicy where
  cancellation_policy : String
  payment_policy : String
deriving DecidableEq, Repr

/-- The slice of a `Hotel` row the approval workflow reads and writes:
the checklist inputs (name/city/address text, whether the related image,
room-type and amenity sets are non-empty, the optional policy record) and
the two flags. -/
structure Hotel where
  name : String
  city : String
  address : String
  has_images : Bool
  has_room_types : Bool
  has_amenities : Bool
  policies : Option HotelPolicy
  is_active : Bool
  approval_requested : Bool
deriving DecidableEq, Repr

/-- `_is_non_empty` (hotels/views.py): `bool(str(value or "").strip())` —
the stripped value is non-empty exactly when the value contains some
non-whitespace character. -/
def is_non_empty (value : String) : Bool :=
  value.data.any (fun c => !c.isWhitespace)

/-- `_get_hotel_missing_sections` (hotels/views.py): build the list of
absent sections; the three detail fields collapse into one "Hotel Details"
entry via the membership guards. -/
def get_hotel_missing_sections (hotel : Hotel) : List String :=
  let missing : List String := []
  let missing :=
    if !is_non_empty hotel.name then missing ++ ["Hotel Details"] else missing
  let missing :=
    if !is_non_empty hotel.city then
      if "Hotel Details" ∈ missing then missing else missing ++ ["Hotel Details"]
    else missing
  let missing :=
    if !is_non_empty hotel.address then
      if "Hotel Details" ∈ missing then missing else missing ++ ["Hotel Details"]
    else missing
  let missing := if !hotel.has_images then missing ++ ["Images"] else missing
  let missing := if !hotel.has_room_types then missing ++ ["Rooms"] else missing
  let missing := if !hotel.has_amenities then missing ++ ["Amenities"] else missing
  match hotel.policies with
  | none => missing ++ ["Policies"]
  | some policy =>
    if !is_non_empty policy.cancellation_policy ∨ !is_non_empty policy.payment_policy then
      missing ++ ["Policies"]
    else missing

/-- Outcome of the approve / reject resolution actions. -/
inductive ApproveOutcome where
  | notRequested
  | alreadyApproved
  | approved
  | rejected
deriving DecidableEq, Repr

/-- The approve resolution core, shared verbatim by
`hotel_partner_approve_view` (after token/auth/lookup) and the staff
`approve` branch of `AdminHotelApprovalPage.post`: guard on
`approval_requested` and `is_active`, then set `is_active` and save with
`update_fields=["is_active"]`. -/
def approveHotel (hotel : Hotel) : ApproveOutcome × Hotel :=
  if hotel.approval_requested = false then (.notRequested, hotel)
  else if hotel.is_active then (.alreadyApproved, hotel)
  else (.approved, { hotel with is_active := true })

/-- The reject resolution core (`hotel_partner_reject_view` and the staff
reject branch): same guards, then clear `approval_requested` and save with
`update_fields=["approval_requested"]`. -/
def rejectHotel (hotel : Hotel) : ApproveOutcome × Hotel :=
  if hotel.approval_requested = false then (.notRequested, hotel)
  else if hotel.is_active then (.alreadyApproved, hotel)
  else (.rejected, { hotel with approval_requested := false })

/-- Outcome of the partner "request approval" action. -/
inductive RequestApprovalOutcome where
  | alreadyActive
  | incomplete (missing : List String)
  | submitted (emailAttempted : Bool)
deriving DecidableEq, Repr

/-- The partner branch of `AdminHotelApprovalPage.post` (and the identical
logic inlined in the HotelViewSet create/update paths): reject if already
active; reject with the `missing` list if the checklist fails; otherwise set
`approval_requested` (if not already set) and attempt the notification
email. -/
def requestApproval (hotel : Hotel) : RequestApprovalOutcome × Hotel :=
  if hotel.is_active then (.alreadyActive, hotel)
  else
    let missing := get_hotel_missing_sections hotel
    if missing ≠ [] then (.incomplete missing, hotel)
    else if hotel.approval_requested = false then
      (.submitted true, { hotel with approval_requested := true })
    else (.submitted false, hotel)

/-- The writable profile fields of a hotel (everything except the two
flags): what a partner create/update can set. -/
structure HotelProfileData where
  name : String
  city : String
  address : String
  has_images : Bool
  has_room_types : Bool
  has_amenities : Bool
  policies : Option HotelPolicy
deriving DecidableEq, Repr

/-- A partner profile write: `write_serializer.save(is_active=hotel.is_active)`
(and `perform_update`'s `serializer.save(is_active=obj.is_active)`) replaces
profile fields but forces both flags to keep their current values. -/
def setProfile (hotel : Hotel) (p : HotelProfileData) : Hotel :=
  { name := p.name, city := p.city, address := p.address,
    has_images := p.has_images, has_room_types := p.has_room_types,
    has_amenities := p.has_amenities, policies := p.policies,
    is_active := hotel.is_active, approval_requested := hotel.approval_requested }

/-- Hotel creation: every exposed creation path
(`HotelViewSet.perform_create` with `serializer.save(is_active=False)`, the
partner create branch, and `HotelPartnerRegisterView` with
`Hotel.objects.create(..., is_active=False)`) starts the hotel inactive,
with `approval_requested` at its model default `False`. -/
def createHotel (p : HotelProfileData) : Hotel :=
  { name := p.name, city := p.city, address := p.address,
    has_images := p.has_images, has_room_types := p.has_room_types,
    has_amenities := p.has_amenities, policies := p.policies,
    is_active := false, approval_requested := false }

/-- One step of the exposed hotel operations: a profile write, a request for
approval, an approve resolution, or a reject resolution. -/
inductive HotelStep : Hotel → Hotel → Prop where
  | update (h : Hotel) (p : HotelProfileData) : HotelStep h (setProfile h p)
  | requestStep (h : Hotel) : HotelStep h (requestApproval h).2
  | approveStep (h : Hotel) : HotelStep h (approveHotel h).2
  | rejectStep (h : Hotel) : HotelStep h (rejectHotel h).2

/-- Hotel states reachable from creation under the exposed operations. -/
inductive HotelReachable : Hotel → Prop where
  | created (p : HotelProfileData) : HotelReachable (createHotel p)
  | step {h h' : Hotel} : HotelReachable h → HotelStep h h' → HotelReachable h'

/-! ## Signed approval tokens (hotels/views.py `hotel_approval_signer`) -/

/-- Modelled from the spec: the views delegate token handling to Django's
`TimestampSigner` (library code, not in this repository), described by the
spec as a signed, time-limited token embedding the hotel identifier.  A
token carries the signed value, the signing timestamp, and an HMAC over
both; `macFn` abstracts the keyed MAC. -/
structure SignedToken where
  value : String
  timestamp : Nat
  sig : String
deriving DecidableEq, Repr

/-- Result of unsigning: the recovered value, or one of the two distinct
failures (`SignatureExpired` vs `BadSignature`). -/
inductive UnsignResult where
  | ok (value : String)
  | expired
  | badSignature
deriving DecidableEq, Repr

/-- Modelled from the spec: `TimestampSigner.sign(value)` at time `now`. -/
def TimestampSigner.sign (macFn : String → Nat → String) (value : String)
    (now : Nat) : SignedToken :=
  { value := value, timestamp := now, sig := macFn value now }

/-- Modelled from the spec: `TimestampSigner.unsign(token, max_age)` at time
`now`: a bad MAC raises `BadSignature`; a valid MAC whose age exceeds
`max_age` raises `SignatureExpired`; otherwise the value is returned. -/
def TimestampSigner.unsign (macFn : String → Nat → String)
    (token : SignedToken) (now max_age : Nat) : UnsignResult :=
  if token.sig ≠ macFn token.value token.timestamp then .badSignature
  else if max_age < now - token.timestamp then .expired
  else .ok token.value

/-- `hotel_partner_approve_view` (hotels/views.py): admin gate, unsign with
`max_age = 7*24*60*60` mapping the two signing failures to their distinct
messages, hotel lookup, then the approve resolution core.  Returns the
(status, body) pair and the hotel table after the request. -/
def hotel_partner_approve_view (macFn : String → Nat → String)
    (isStaff : Bool) (token : SignedToken) (now : Nat)
    (hotels : String → Option Hotel) :
    (Nat × String) × (String → Option Hotel) :=
  if isStaff = false then ((403, "Access denied: admin only."), hotels)
  else
    match TimestampSigner.unsign macFn token now (7 * 24 * 60 * 60) with
    | .expired => ((400, "Approval link has expired."), hotels)
    | .badSignature => ((400, "Invalid approval link."), hotels)
    | .ok hotel_id =>
      match hotels hotel_id with
      | none => ((404, "Hotel not found."), hotels)
      | some hotel =>
        if hotel.approval_requested = false then
          ((400, "This hotel has not requested approval yet."), hotels)
        else if hotel.is_active then
          ((200, "Hotel is already approved and visible on the platform."), hotels)
        else
          ((200, "Hotel has been approved and is now visible on the platform."),
           updFun hotels hotel_id (some { hotel with is_active := true }))

/-! ## Helper characterizations and lemmas -/

/-- Spec-side reading of the "Hotel Details" section being complete:
non-empty name, city and address. -/
def hotelDetailsComplete (h : Hotel) : Bool :=
  is_non_empty h.name && is_non_empty h.city && is_non_empty h.address

/-- Spec-side reading of the "Policies" section being complete: a policy
record exists with non-empty cancellation and payment text. -/
def policiesComplete (h : Hotel) : Bool :=
  match h.policies with
  | none => false
  | some p => is_non_empty p.cancellation_policy && is_non_empty p.payment_policy

/-- Spec-side reading of the whole checklist passing. -/
def hotelComplete (h : Hotel) : Bool :=
  hotelDetailsComplete h && h.has_images && h.has_room_types &&
    h.has_amenities && policiesComplete h

theorem updFun_self {α : Type} (f : String → Option α) (k : String)
    (v : Option α) : updFun f k v k = v := by
  simp [updFun]

theorem updFun_other {α : Type} (f : String → Option α) (k e : String)
    (v : Option α) (h : e ≠ k) : updFun f k v e = f e := by
  simp [updFun, h]

theorem string_append_left_cancel (s a b : String) (h : s ++ a = s ++ b) :
    a = b := by
  have hd : (s ++ a).data = (s ++ b).data := by rw [h]
  simp only [String.data_append] at hd
  have hab : a.data = b.data := List.append_cancel_left hd
  cases a; cases b
  exact congrArg String.mk hab

/-- Normal form of `get_hotel_missing_sections`: one block per section, in
source order, each present exactly when that section is incomplete. -/
theorem missing_sections_eq (h : Hotel) :
    get_hotel_missing_sections h =
      (if hotelDetailsComplete h then [] else ["Hotel Details"]) ++
      (if h.has_images then [] else ["Images"]) ++
      (if h.has_room_types then [] else ["Rooms"]) ++
      (if h.has_amenities then [] else ["Amenities"]) ++
      (if policiesComplete h then [] else ["Policies"]) := by
  obtain ⟨name, city, address, imgs, rooms, ams, pols, act, req⟩ := h
  simp only [get_hotel_missing_sections, hotelDetailsComplete, policiesComplete]
  cases pols with
  | none =>
    by_cases hn : is_non_empty name = true <;>
      by_cases hc : is_non_empty city = true <;>
      by_cases ha : is_non_empty address = true <;>
      cases imgs <;> cases rooms <;> cases ams <;>
      simp [hn, hc, ha]
  | some p =>
    by_cases hn : is_non_empty name = true <;>
      by_cases hc : is_non_empty city = true <;>
      by_cases ha : is_non_empty address = true <;>
      by_cases hcp : is_non_empty p.cancellation_policy = true <;>
      by_cases hpp : is_non_empty p.payment_policy = true <;>
      cases imgs <;> cases rooms <;> cases ams <;>
      simp [hn, hc, ha, hcp, hpp]

theorem missing_sections_nil_iff (h : Hotel) :
    get_hotel_missing_sections h = [] ↔ hotelComplete h = true := by
  rw [missing_sections_eq]
  simp only [hotelComplete]
  by_cases hd : hotelDetailsComplete h = true <;>
    cases hi : h.has_images <;> cases hr : h.has_room_types <;>
    cases ha : h.has_amenities <;>
    by_cases hp : policiesComplete h = true <;>
    simp [hd, hp, hi, hr, ha]

/-! ## Branch lemmas for the verify endpoints -/

theorem verifyRegisterOtp_noUser (hashFn : String → String) (store : OTPStore)
    (email otp : String) (now : Nat) :
    verifyRegisterOtp hashFn store false email otp now = (.invalidEmail, store) := by
  simp [verifyRegisterOtp]

theorem verifyRegisterOtp_noRecord (hashFn : String → String) (store : OTPStore)
    (email otp : String) (now : Nat) (h : store email = none) :
    verifyRegisterOtp hashFn store true email otp now = (.invalidOrExpired, store) := by
  unfold verifyRegisterOtp
  rw [h]
  simp

theorem verifyRegisterOtp_eq_some (hashFn : String → String) (store : OTPStore)
    (email otp : String) (now : Nat) (r : EmailOTP) (h : store email = some r) :
    verifyRegisterOtp hashFn store true email otp now =
      if r.used ∨ r.is_expired now ∨ 5 ≤ r.attempts then (.invalidOrExpired, store)
      else if hash_otp hashFn otp r.salt = r.otp_hash then
        (.success, updFun store email (some { r with used := true }))
      else
        (.invalidOtp, updFun store email (some { r with attempts := r.attempts + 1 })) := by
  unfold verifyRegisterOtp
  rw [h]
  simp

theorem hotelPartnerVerifyOtp_noUser (hashFn : String → String) (store : OTPStore)
    (email otp : String) (now : Nat) :
    hotelPartnerVerifyOtp hashFn store false email otp now = (.invalidEmail, store) := by
  simp [hotelPartnerVerifyOtp]

theorem hotelPartnerVerifyOtp_noRecord (hashFn : String → String) (store : OTPStore)
    (email otp : String) (now : Nat) (h : store email.toLower = none) :
    hotelPartnerVerifyOtp hashFn store true email otp now = (.invalidOrExpired, store) := by
  unfold hotelPartnerVerifyOtp
  dsimp only
  rw [h]
  simp

theorem hotelPartnerVerifyOtp_eq_some (hashFn : String → String) (store : OTPStore)
    (email otp : String) (now : Nat) (r : EmailOTP)
    (h : store email.toLower = some r) :
    hotelPartnerVerifyOtp hashFn store true email otp now =
      if r.used ∨ r.is_expired now ∨ 5 ≤ r.attempts then (.invalidOrExpired, store)
      else if hash_otp hashFn otp r.salt = r.otp_hash then
        (.success, updFun store email.toLower (some { r with used := true }))
      else
        (.invalidOtp, updFun store email.toLower (some { r with attempts := r.attempts + 1 })) := by
  unfold hotelPartnerVerifyOtp
  dsimp only
  rw [h]
  simp

/-! ## Concrete fixtures for counterexamples and witnesses -/

/-- A fresh, unused OTP record whose plaintext code (under `hashFn = id`) is
"123456" with salt "s". -/
def otpRecordA : EmailOTP :=
  { email := "a@b.com", otp_hash := "s123456", salt := "s", created_at := 0,
    expires_at := 100, attempts := 0, used := false }

/-- A table holding only `otpRecordA`. -/
def otpStoreA : OTPStore :=
  fun e => if e = "a@b.com" then some otpRecordA else none

/-- An already-consumed OTP record. -/
def otpRecordUsed : EmailOTP :=
  { email := "a@b.com", otp_hash := "s123456", salt := "s", created_at := 0,
    expires_at := 100, attempts := 0, used := true }

/-- A table holding only `otpRecordUsed`. -/
def otpStoreUsed : OTPStore :=
  fun e => if e = "a@b.com" then some otpRecordUsed else none

/-! ## C1 -/

/-- C1: counterexample.  A hash-mismatch failure (wrong code "111111"
against the stored code "123456") is reported with the detail
"Invalid OTP.", which is a distinct message from the generic
"Invalid or expired OTP." used for the no-record / used / expired /
exhausted failures — so the verify operation does distinguish "wrong code"
from the other failure conditions, contrary to the claim. -/
theorem otp_verify_mismatch_message_distinct :
    (verifyRegisterOtp id otpStoreA true "a@b.com" "111111" 10).1 = .invalidOtp
  ∧ (verifyRegisterOtp id otpStoreA true "a@b.com" "111111" 10).1.detail = "Invalid OTP."
  ∧ VerifyOutcome.invalidOrExpired.detail = "Invalid or expired OTP."
  ∧ VerifyOutcome.invalidOtp.detail ≠ VerifyOutcome.invalidOrExpired.detail := by
  refine ⟨by decide, by decide, rfl, by decide⟩

/-- C1 (amended): in both verify endpoints every failure is reported with
HTTP status 400, and the four record-precondition failures (no record,
already used, expired, attempt ceiling) all share the one generic
"Invalid or expired OTP." detail; however a hash mismatch is reported with
the distinct detail "Invalid OTP." and an unknown email with
"Invalid email or OTP.". -/
theorem otp_verify_failure_reporting (hashFn : String → String)
    (store : OTPStore) (email otp : String) (now : Nat) :
    (∀ userExists,
        (verifyRegisterOtp hashFn store userExists email otp now).1 ≠ .success →
        (verifyRegisterOtp hashFn store userExists email otp now).1.status = 400)
  ∧ (∀ hotelUserExists,
        (hotelPartnerVerifyOtp hashFn store hotelUserExists email otp now).1 ≠ .success →
        (hotelPartnerVerifyOtp hashFn store hotelUserExists email otp now).1.status = 400)
  ∧ (store email = none →
        (verifyRegisterOtp hashFn store true email otp now).1.detail =
          "Invalid or expired OTP.")
  ∧ (∀ r, store email = some r →
        (r.used = true ∨ r.is_expired now = true ∨ 5 ≤ r.attempts) →
        (verifyRegisterOtp hashFn store true email otp now).1.detail =
          "Invalid or expired OTP.")
  ∧ (∀ r, store email = some r → r.used = false → r.is_expired now = false →
        r.attempts < 5 → hash_otp hashFn otp r.salt ≠ r.otp_hash →
        (verifyRegisterOtp hashFn store true email otp now).1.detail = "Invalid OTP.")
  ∧ (verifyRegisterOtp hashFn store false email otp now).1.detail =
      "Invalid email or OTP." := by
  refine ⟨?_, ?_, ?_, ?_, ?_, ?_⟩
  · intro userExists hfail
    cases hres : (verifyRegisterOtp hashFn store userExists email otp now).1 <;>
      simp_all [VerifyOutcome.status]
  · intro hotelUserExists hfail
    cases hres : (hotelPartnerVerifyOtp hashFn store hotelUserExists email otp now).1 <;>
      simp_all [VerifyOutcome.status]
  · intro hnone
    rw [verifyRegisterOtp_noRecord hashFn store email otp now hnone]
    rfl
  · intro r hr hpre
    rw [verifyRegisterOtp_eq_some hashFn store email otp now r hr, if_pos hpre]
    rfl
  · intro r hr hused hexp hatt hmis
    have hpre : ¬(r.used = true ∨ r.is_expired now = true ∨ 5 ≤ r.attempts) := by
      push_neg
      exact ⟨by simp [hused], by simp [hexp], by omega⟩
    rw [verifyRegisterOtp_eq_some hashFn store email otp now r hr, if_neg hpre,
      if_neg hmis]
    rfl
  · rw [verifyRegisterOtp_noUser]
    rfl

/-- Witness for C1 (amended): a used record yields the generic detail, and a
hash mismatch on a fresh record yields the distinct "Invalid OTP." detail. -/
theorem otp_verify_failure_reporting_witness :
    otpStoreUsed "a@b.com" = some otpRecordUsed
  ∧ otpRecordUsed.used = true
  ∧ (verifyRegisterOtp id otpStoreUsed true "a@b.com" "123456" 10).1.detail =
      "Invalid or expired OTP."
  ∧ otpStoreA "a@b.com" = some otpRecordA
  ∧ otpRecordA.used = false
  ∧ otpRecordA.is_expired 10 = false
  ∧ otpRecordA.attempts < 5
  ∧ hash_otp id "111111" otpRecordA.salt ≠ otpRecordA.otp_hash
  ∧ (verifyRegisterOtp id otpStoreA true "a@b.com" "111111" 10).1.detail =
      "Invalid OTP." := by
  refine ⟨rfl, rfl, ?_, rfl, rfl, by decide, by decide, by decide, ?_⟩
  · exact (otp_verify_failure_reporting id otpStoreUsed "a@b.com" "123456" 10).2.2.2.1
      otpRecordUsed rfl (Or.inl rfl)
  · exact (otp_verify_failure_reporting id otpStoreA "a@b.com" "111111" 10).2.2.2.2.1
      otpRecordA rfl rfl rfl (by decide) (by decide)

/-! ## C4 -/

theorem verifyRegisterOtp_wrong (hashFn : String → String) (store : OTPStore)
    (email otp : String) (now : Nat) (r : EmailOTP) (h : store email = some r)
    (hused : r.used = false) (hexp : r.is_expired now = false)
    (hatt : r.attempts < 5) (hmis : hash_otp hashFn otp r.salt ≠ r.otp_hash) :
    verifyRegisterOtp hashFn store true email otp now =
      (.invalidOtp, updFun store email (some { r with attempts := r.attempts + 1 })) := by
  have hpre : ¬(r.used = true ∨ r.is_expired now = true ∨ 5 ≤ r.attempts) := by
    push_neg
    exact ⟨by simp [hused], by simp [hexp], by omega⟩
  rw [verifyRegisterOtp_eq_some hashFn store email otp now r h, if_neg hpre,
    if_neg hmis]

theorem EmailOTP.eta_attempts (r : EmailOTP) : { r with attempts := r.attempts } = r := by
  cases r
  rfl

/-- Repeated verify attempts against the registration endpoint with the same
candidate code; returns the OTP table after `n` attempts. -/
def verifyIter (hashFn : String → String) (store : OTPStore)
    (email otp : String) (now : Nat) : Nat → OTPStore
  | 0 => store
  | n + 1 =>
    (verifyRegisterOtp hashFn (verifyIter hashFn store email otp now n) true email otp now).2

theorem verifyIter_wrong (hashFn : String → String) (store : OTPStore)
    (email otp : String) (now : Nat) (r : EmailOTP) (h : store email = some r)
    (hused : r.used = false) (hexp : r.is_expired now = false)
    (hatt0 : r.attempts = 0) (hmis : hash_otp hashFn otp r.salt ≠ r.otp_hash) :
    ∀ n, n ≤ 5 →
      verifyIter hashFn store email otp now n email = some { r with attempts := n } := by
  intro n
  induction n with
  | zero =>
    intro _
    rw [verifyIter, ← hatt0, EmailOTP.eta_attempts]
    exact h
  | succ m ih =>
    intro hm5
    have hm : m ≤ 5 := Nat.le_of_succ_le hm5
    have hrec := ih hm
    rw [verifyIter,
      verifyRegisterOtp_wrong hashFn _ email otp now { r with attempts := m } hrec
        hused hexp (by simpa using Nat.lt_of_succ_le hm5) hmis]
    simp [updFun_self]

/-- C4: if no record exists for the email, or the record is used, expired,
or has reached 5 attempts, both verify endpoints fail with the generic
outcome, the table is unmutated, and the result is the same for every
candidate code — the hash comparison is never consulted.  In particular,
after five wrong guesses against a fresh record, a sixth attempt fails with
the generic outcome for every candidate, including the correct one. -/
theorem otp_verify_preconditions_gate_comparison (hashFn : String → String)
    (store : OTPStore) (email : String) (now : Nat) :
    (store email = none → ∀ otp,
        verifyRegisterOtp hashFn store true email otp now = (.invalidOrExpired, store))
  ∧ (∀ r, store email = some r →
        (r.used = true ∨ r.is_expired now = true ∨ 5 ≤ r.attempts) →
        ∀ otp, verifyRegisterOtp hashFn store true email otp now = (.invalidOrExpired, store))
  ∧ (store email.toLower = none → ∀ otp,
        hotelPartnerVerifyOtp hashFn store true email otp now = (.invalidOrExpired, store))
  ∧ (∀ r, store email.toLower = some r →
        (r.used = true ∨ r.is_expired now = true ∨ 5 ≤ r.attempts) →
        ∀ otp, hotelPartnerVerifyOtp hashFn store true email otp now = (.invalidOrExpired, store))
  ∧ (∀ r wrong, store email = some r → r.used = false → r.is_expired now = false →
        r.attempts = 0 → hash_otp hashFn wrong r.salt ≠ r.otp_hash →
        ∀ otp6,
          (verifyRegisterOtp hashFn (verifyIter hashFn store email wrong now 5)
            true email otp6 now).1 = .invalidOrExpired) := by
  refine ⟨?_, ?_, ?_, ?_, ?_⟩
  · intro hnone otp
    exact verifyRegisterOtp_noRecord hashFn store email otp now hnone
  · intro r hr hpre otp
    rw [verifyRegisterOtp_eq_some hashFn store email otp now r hr, if_pos hpre]
  · intro hnone otp
    exact hotelPartnerVerifyOtp_noRecord hashFn store email otp now hnone
  · intro r hr hpre otp
    rw [hotelPartnerVerifyOtp_eq_some hashFn store email otp now r hr, if_pos hpre]
  · intro r wrong hr hused hexp hatt0 hmis otp6
    have h5 := verifyIter_wrong hashFn store email wrong now r hr hused hexp hatt0 hmis 5
      (Nat.le_refl 5)
    rw [verifyRegisterOtp_eq_some hashFn _ email otp6 now _ h5,
      if_pos (Or.inr (Or.inr (by simp)))]

/-- Witness for C4: both an exhausted-record check and the full
five-wrong-guesses-then-correct-sixth scenario at concrete inputs; the
sixth code "123456" is the genuinely correct one for the stored record. -/
theorem otp_verify_preconditions_gate_comparison_witness :
    otpStoreUsed "a@b.com" = some otpRecordUsed
  ∧ otpRecordUsed.used = true
  ∧ verifyRegisterOtp id otpStoreUsed true "a@b.com" "123456" 10 =
      (.invalidOrExpired, otpStoreUsed)
  ∧ otpStoreA "a@b.com" = some otpRecordA
  ∧ otpRecordA.used = false
  ∧ otpRecordA.is_expired 10 = false
  ∧ otpRecordA.attempts = 0
  ∧ hash_otp id "111111" otpRecordA.salt ≠ otpRecordA.otp_hash
  ∧ hash_otp id "123456" otpRecordA.salt = otpRecordA.otp_hash
  ∧ (verifyRegisterOtp id (verifyIter id otpStoreA "a@b.com" "111111" 10 5)
      true "a@b.com" "123456" 10).1 = .invalidOrExpired := by
  refine ⟨rfl, rfl, ?_, rfl, rfl, by decide, rfl, by decide, by decide, ?_⟩
  · exact (otp_verify_preconditions_gate_comparison id otpStoreUsed "a@b.com" 10).2.1
      otpRecordUsed rfl (Or.inl rfl) "123456"
  · exact (otp_verify_preconditions_gate_comparison id otpStoreA "a@b.com" 10).2.2.2.2
      otpRecordA "111111" rfl rfl rfl rfl (by decide) "123456"

/-! ## C5 -/

theorem verifyRegisterOtp_success (hashFn : String → String) (store : OTPStore)
    (email otp : String) (now : Nat) (r : EmailOTP) (h : store email = some r)
    (hused : r.used = false) (hexp : r.is_expired now = false)
    (hatt : r.attempts < 5) (hmatch : hash_otp hashFn otp r.salt = r.otp_hash) :
    verifyRegisterOtp hashFn store true email otp now =
      (.success, updFun store email (some { r with used := true })) := by
  have hpre : ¬(r.used = true ∨ r.is_expired now = true ∨ 5 ≤ r.attempts) := by
    push_neg
    exact ⟨by simp [hused], by simp [hexp], by omega⟩
  rw [verifyRegisterOtp_eq_some hashFn store email otp now r h, if_neg hpre,
    if_pos hmatch]

/-- C5: an OTP code is single-use.  A successful verification marks the
record used and any later attempt for that email fails generically leaving
the table unchanged; a verify attempt never clears an already-set used flag;
a failed comparison leaves used at false and only increments attempts; and
the only write that resets used to false is the issuance upsert itself. -/
theorem otp_single_use (hashFn : String → String) (store : OTPStore)
    (email otp : String) (now : Nat) :
    (∀ r, store email = some r → r.used = false → r.is_expired now = false →
        r.attempts < 5 → hash_otp hashFn otp r.salt = r.otp_hash →
        (verifyRegisterOtp hashFn store true email otp now).1 = .success
      ∧ (verifyRegisterOtp hashFn store true email otp now).2 email =
          some { r with used := true }
      ∧ ∀ now2 otp2,
          verifyRegisterOtp hashFn (verifyRegisterOtp hashFn store true email otp now).2
              true email otp2 now2 =
            (.invalidOrExpired, (verifyRegisterOtp hashFn store true email otp now).2))
  ∧ (∀ r, store email = some r → r.used = true →
        ∀ r', (verifyRegisterOtp hashFn store true email otp now).2 email = some r' →
          r'.used = true)
  ∧ (∀ r, store email = some r → r.used = false → r.is_expired now = false →
        r.attempts < 5 → hash_otp hashFn otp r.salt ≠ r.otp_hash →
        (verifyRegisterOtp hashFn store true email otp now).1 ≠ .success
      ∧ (verifyRegisterOtp hashFn store true email otp now).2 email =
          some { r with attempts := r.attempts + 1 }
      ∧ ({ r with attempts := r.attempts + 1 } : EmailOTP).used = false)
  ∧ (∀ st em o s n m,
        (create_otp_record hashFn st em o s n m).1.used = false
      ∧ (create_otp_record hashFn st em o s n m).2 em =
          some (create_otp_record hashFn st em o s n m).1) := by
  refine ⟨?_, ?_, ?_, ?_⟩
  · intro r hr hused hexp hatt hmatch
    rw [verifyRegisterOtp_success hashFn store email otp now r hr hused hexp hatt hmatch]
    refine ⟨rfl, updFun_self store email _, ?_⟩
    intro now2 otp2
    have h2 : updFun store email (some { r with used := true }) email =
        some { r with used := true } := updFun_self store email _
    rw [verifyRegisterOtp_eq_some hashFn _ email otp2 now2 _ h2, if_pos (Or.inl rfl)]
  · intro r hr husedT r' hr'
    rw [verifyRegisterOtp_eq_some hashFn store email otp now r hr,
      if_pos (Or.inl husedT)] at hr'
    dsimp only at hr'
    rw [hr] at hr'
    cases hr'
    exact husedT
  · intro r hr hused hexp hatt hmis
    rw [verifyRegisterOtp_wrong hashFn store email otp now r hr hused hexp hatt hmis]
    exact ⟨by simp, updFun_self store email _, by simpa using hused⟩
  · intro st em o s n m
    constructor
    · unfold create_otp_record
      cases st em <;> rfl
    · exact updFun_self st em _

/-- Witness for C5: verifying the correct code "123456" once succeeds and
marks the record used; repeating it immediately fails with the generic
outcome. -/
theorem otp_single_use_witness :
    otpStoreA "a@b.com" = some otpRecordA
  ∧ otpRecordA.used = false
  ∧ otpRecordA.is_expired 10 = false
  ∧ otpRecordA.attempts < 5
  ∧ hash_otp id "123456" otpRecordA.salt = otpRecordA.otp_hash
  ∧ (verifyRegisterOtp id otpStoreA true "a@b.com" "123456" 10).1 = .success
  ∧ (verifyRegisterOtp id
      (verifyRegisterOtp id otpStoreA true "a@b.com" "123456" 10).2
      true "a@b.com" "123456" 20).1 = .invalidOrExpired := by
  have h := (otp_single_use id otpStoreA "a@b.com" "123456" 10).1 otpRecordA
    rfl rfl (by decide) (by decide) (by decide)
  refine ⟨rfl, rfl, by decide, by decide, by decide, h.1, ?_⟩
  rw [h.2.2 20 "123456"]

/-! ## C6 -/

theorem create_otp_record_fields (hashFn : String → String) (store : OTPStore)
    (email otp salt : String) (now m : Nat) :
    (create_otp_record hashFn store email otp salt now m).1.otp_hash = hash_otp hashFn otp salt
  ∧ (create_otp_record hashFn store email otp salt now m).1.salt = salt
  ∧ (create_otp_record hashFn store email otp salt now m).1.expires_at = now + m * 60
  ∧ (create_otp_record hashFn store email otp salt now m).1.attempts = 0
  ∧ (create_otp_record hashFn store email otp salt now m).1.used = false
  ∧ (create_otp_record hashFn store email otp salt now m).2 email =
      some (create_otp_record hashFn store email otp salt now m).1 := by
  unfold create_otp_record
  cases store email <;> simp [updFun_self]

/-- C6: issuing a second OTP for the same email overwrites the stored hash,
salt, expiry, attempts and used fields of the prior record, and afterwards
verifying with the first plaintext code fails (for an injective digest and
distinct draws, the first code no longer matches the stored hash). -/
theorem otp_reissue_overwrites_and_invalidates (hashFn : String → String)
    (hInj : Function.Injective hashFn) (store : OTPStore)
    (email otp1 salt1 otp2 salt2 : String) (t1 t2 m1 m2 : Nat)
    (hne : otp1 ≠ otp2) :
    let store1 := (create_otp_record hashFn store email otp1 salt1 t1 m1).2
    let r2 := (create_otp_record hashFn store1 email otp2 salt2 t2 m2).1
    let store2 := (create_otp_record hashFn store1 email otp2 salt2 t2 m2).2
    store2 email = some r2
  ∧ r2.otp_hash = hash_otp hashFn otp2 salt2
  ∧ r2.salt = salt2
  ∧ r2.expires_at = t2 + m2 * 60
  ∧ r2.attempts = 0
  ∧ r2.used = false
  ∧ ∀ userExists now,
      (verifyRegisterOtp hashFn store2 userExists email otp1 now).1 ≠ .success := by
  dsimp only
  obtain ⟨f1, f2, f3, f4, f5, f6⟩ :=
    create_otp_record_fields hashFn
      (create_otp_record hashFn store email otp1 salt1 t1 m1).2 email otp2 salt2 t2 m2
  refine ⟨f6, f1, f2, f3, f4, f5, ?_⟩
  intro userExists now
  have hmis : hash_otp hashFn otp1
      (create_otp_record hashFn (create_otp_record hashFn store email otp1 salt1 t1 m1).2
        email otp2 salt2 t2 m2).1.salt ≠
      (create_otp_record hashFn (create_otp_record hashFn store email otp1 salt1 t1 m1).2
        email otp2 salt2 t2 m2).1.otp_hash := by
    rw [f2, f1]
    intro hEq
    exact hne (string_append_left_cancel salt2 otp1 otp2 (hInj hEq))
  cases userExists with
  | false =>
    rw [verifyRegisterOtp_noUser]
    simp
  | true =>
    rw [verifyRegisterOtp_eq_some hashFn _ email otp1 now _ f6]
    split_ifs with hpre <;> simp_all

/-- Witness for C6: after reissuing with code "654321", verifying the first
code "123456" fails. -/
theorem otp_reissue_overwrites_and_invalidates_witness :
    Function.Injective (id : String → String)
  ∧ ("123456" : String) ≠ "654321"
  ∧ (verifyRegisterOtp id
      (create_otp_record id
        (create_otp_record id (fun _ => none) "a@b.com" "123456" "s" 0 2).2
        "a@b.com" "654321" "t" 5 2).2
      true "a@b.com" "123456" 10).1 ≠ .success := by
  refine ⟨Function.injective_id, by decide, ?_⟩
  exact (otp_reissue_overwrites_and_invalidates id Function.injective_id (fun _ => none)
    "a@b.com" "123456" "s" "654321" "t" 0 5 2 2 (by decide)).2.2.2.2.2.2 true 10

/-! ## C3 -/

/-- C3: evaluation at the failing input.  For an email that already has a
pre-existing (here: active) user account, a mail failure on the
registration request-otp endpoint returns 500 and deletes that pre-existing
account: `user.delete()` runs on the looked-up user whether or not this
request created it.  The final conjuncts show the intended case for
contrast: with no pre-existing user, the rollback deletes the
just-created one. -/
theorem request_otp_mail_failure_deletes_preexisting_user :
    let stPre : AccountsState :=
      { users := fun e => if e = "a@b.com" then some { is_active := true } else none,
        otps := fun _ => none }
    let stNew : AccountsState := { users := fun _ => none, otps := fun _ => none }
    stPre.users "a@b.com" = some { is_active := true }
  ∧ (requestRegisterOtp id stPre "a@b.com" "123456" "s" 0 false).1 = 500
  ∧ (requestRegisterOtp id stPre "a@b.com" "123456" "s" 0 false).2.users "a@b.com" = none
  ∧ stNew.users "a@b.com" = none
  ∧ (requestRegisterOtp id stNew "a@b.com" "123456" "s" 0 false).1 = 500
  ∧ (requestRegisterOtp id stNew "a@b.com" "123456" "s" 0 false).2.users "a@b.com" = none := by
  exact ⟨rfl, rfl, rfl, rfl, rfl, rfl⟩

/-! ## C10 -/

/-- C10: the OTP upsert precedes the mail send, so when either request-otp
endpoint reports a 500 mail failure the fresh record has already replaced
the prior one for that email, and a previously issued plaintext code no
longer verifies even though the caller was told the operation failed. -/
theorem request_otp_upsert_before_send (hashFn : String → String)
    (st : AccountsState) (otps : OTPStore) (email otpNew saltNew : String)
    (now : Nat) :
    (requestRegisterOtp hashFn st email otpNew saltNew now false).1 = 500
  ∧ (requestRegisterOtp hashFn st email otpNew saltNew now false).2.otps email =
      some (create_otp_record hashFn st.otps email otpNew saltNew now 2).1
  ∧ (Function.Injective hashFn → ∀ otpOld, otpOld ≠ otpNew →
      ∀ userExists now2,
        (verifyRegisterOtp hashFn
          (requestRegisterOtp hashFn st email otpNew saltNew now false).2.otps
          userExists email otpOld now2).1 ≠ .success)
  ∧ (hotelPartnerRequestOtp hashFn otps true email otpNew saltNew now false).1 = 500
  ∧ (hotelPartnerRequestOtp hashFn otps true email otpNew saltNew now false).2
      email.toLower =
      some (create_otp_record hashFn otps email.toLower otpNew saltNew now 2).1 := by
  obtain ⟨f1, f2, _, _, _, f6⟩ :=
    create_otp_record_fields hashFn st.otps email otpNew saltNew now 2
  obtain ⟨_, _, _, _, _, g6⟩ :=
    create_otp_record_fields hashFn otps email.toLower otpNew saltNew now 2
  have hsto : (requestRegisterOtp hashFn st email otpNew saltNew now false).2.otps =
      (create_otp_record hashFn st.otps email otpNew saltNew now 2).2 := rfl
  refine ⟨rfl, by rw [hsto]; exact f6, ?_, rfl, g6⟩
  intro hInj otpOld hne userExists now2
  rw [hsto]
  have hmis : hash_otp hashFn otpOld
      (create_otp_record hashFn st.otps email otpNew saltNew now 2).1.salt ≠
      (create_otp_record hashFn st.otps email otpNew saltNew now 2).1.otp_hash := by
    rw [f2, f1]
    intro hEq
    exact hne (string_append_left_cancel saltNew otpOld otpNew (hInj hEq))
  cases userExists with
  | false =>
    rw [verifyRegisterOtp_noUser]
    simp
  | true =>
    rw [verifyRegisterOtp_eq_some hashFn _ email otpOld now2 _ f6]
    split_ifs with hpre <;> simp_all

/-- Witness for C10: a valid stored code "123456" is superseded by the
failed reissue of "654321"; the caller sees a 500 yet "123456" no longer
verifies. -/
theorem request_otp_upsert_before_send_witness :
    Function.Injective (id : String → String)
  ∧ ("123456" : String) ≠ "654321"
  ∧ (requestRegisterOtp id { users := fun _ => none, otps := otpStoreA }
      "a@b.com" "654321" "t" 0 false).1 = 500
  ∧ (verifyRegisterOtp id
      (requestRegisterOtp id { users := fun _ => none, otps := otpStoreA }
        "a@b.com" "654321" "t" 0 false).2.otps
      true "a@b.com" "123456" 10).1 ≠ .success := by
  have h := request_otp_upsert_before_send id
    { users := fun _ => none, otps := otpStoreA } otpStoreA "a@b.com" "654321" "t" 0
  exact ⟨Function.injective_id, by decide, h.1,
    h.2.2.1 Function.injective_id "123456" (by decide) true 10⟩

/-! ## C9 -/

/-- C9: on a hotel with a pending approval request, a successful approve
sets only `is_active` (leaving `approval_requested` true and every profile
field unchanged), and a successful reject clears only `approval_requested`
(leaving `is_active` and every profile field unchanged). -/
theorem resolve_approval_frame (h : Hotel) (hreq : h.approval_requested = true)
    (hact : h.is_active = false) :
    approveHotel h = (.approved, { h with is_active := true })
  ∧ (approveHotel h).2.approval_requested = true
  ∧ (approveHotel h).2.name = h.name
  ∧ (approveHotel h).2.city = h.city
  ∧ (approveHotel h).2.address = h.address
  ∧ (approveHotel h).2.has_images = h.has_images
  ∧ (approveHotel h).2.has_room_types = h.has_room_types
  ∧ (approveHotel h).2.has_amenities = h.has_amenities
  ∧ (approveHotel h).2.policies = h.policies
  ∧ rejectHotel h = (.rejected, { h with approval_requested := false })
  ∧ (rejectHotel h).2.is_active = h.is_active
  ∧ (rejectHotel h).2.name = h.name
  ∧ (rejectHotel h).2.city = h.city
  ∧ (rejectHotel h).2.address = h.address
  ∧ (rejectHotel h).2.has_images = h.has_images
  ∧ (rejectHotel h).2.has_room_types = h.has_room_types
  ∧ (rejectHotel h).2.has_amenities = h.has_amenities
  ∧ (rejectHotel h).2.policies = h.policies := by
  refine ⟨?_, ?_, ?_, ?_, ?_, ?_, ?_, ?_, ?_, ?_, ?_, ?_, ?_, ?_, ?_, ?_, ?_, ?_⟩ <;>
    simp [approveHotel, rejectHotel, hreq, hact]

/-- A complete hotel profile with a pending approval request. -/
def hotelB : Hotel :=
  { name := "Lakeview", city := "Pokhara", address := "Lakeside 6",
    has_images := true, has_room_types := true, has_amenities := true,
    policies := some { cancellation_policy := "free", payment_policy := "cash" },
    is_active := false, approval_requested := true }

/-- Witness for C9: approve and reject of `hotelB` each flip exactly their
own flag. -/
theorem resolve_approval_frame_witness :
    hotelB.approval_requested = true
  ∧ hotelB.is_active = false
  ∧ approveHotel hotelB = (.approved, { hotelB with is_active := true })
  ∧ rejectHotel hotelB = (.rejected, { hotelB with approval_requested := false }) := by
  have hfr := resolve_approval_frame hotelB rfl rfl
  exact ⟨rfl, rfl, hfr.1, hfr.2.2.2.2.2.2.2.2.2.1⟩

/-! ## C2 -/

/-- Each exposed hotel operation preserves the activation invariant: if in
the pre-state every active hotel has its approval request recorded, the same
holds in the post-state. -/
theorem hotelStep_preserves {h h' : Hotel} (hstep : HotelStep h h')
    (ih : h.is_active = true → h.approval_requested = true)
    (hact' : h'.is_active = true) : h'.approval_requested = true := by
  cases hstep with
  | update p => simp_all [setProfile]
  | requestStep =>
    by_cases h1 : h.is_active = true <;>
      by_cases h2 : get_hotel_missing_sections h = [] <;>
      by_cases h3 : h.approval_requested = true <;>
      simp_all [requestApproval]
  | approveStep =>
    by_cases h1 : h.is_active = true <;>
      by_cases h3 : h.approval_requested = true <;>
      simp_all [approveHotel]
  | rejectStep =>
    by_cases h1 : h.is_active = true <;>
      by_cases h3 : h.approval_requested = true <;>
      simp_all [rejectHotel]

/-- C2: under the exposed operations, hotels are created inactive with no
approval request; a step can flip `is_active` to true only from a state
where `approval_requested` already holds; a step can set
`approval_requested` only from a state whose checklist is complete; and in
every reachable state, an active hotel has `approval_requested` set. -/
theorem hotel_activation_requires_approval_request :
    (∀ p : HotelProfileData,
        (createHotel p).is_active = false ∧ (createHotel p).approval_requested = false)
  ∧ (∀ h h' : Hotel, HotelStep h h' → h.is_active = false → h'.is_active = true →
        h.approval_requested = true)
  ∧ (∀ h h' : Hotel, HotelStep h h' → h.approval_requested = false →
        h'.approval_requested = true → get_hotel_missing_sections h = [])
  ∧ (∀ h : Hotel, HotelReachable h → h.is_active = true →
        h.approval_requested = true) := by
  refine ⟨fun p => ⟨rfl, rfl⟩, ?_, ?_, ?_⟩
  · intro h h' hstep hact hact'
    cases hstep with
    | update p => simp_all [setProfile]
    | requestStep =>
      by_cases h2 : get_hotel_missing_sections h = [] <;>
        by_cases h3 : h.approval_requested = true <;>
        simp_all [requestApproval]
    | approveStep =>
      by_cases h3 : h.approval_requested = true <;> simp_all [approveHotel]
    | rejectStep =>
      by_cases h3 : h.approval_requested = true <;> simp_all [rejectHotel]
  · intro h h' hstep hreqF hreqT
    cases hstep with
    | update p => simp_all [setProfile]
    | requestStep =>
      by_cases h1 : h.is_active = true <;>
        by_cases h2 : get_hotel_missing_sections h = [] <;>
        simp_all [requestApproval]
    | approveStep =>
      by_cases h1 : h.is_active = true <;> simp_all [approveHotel]
    | rejectStep =>
      by_cases h1 : h.is_active = true <;> simp_all [rejectHotel]
  · intro h hr
    induction hr with
    | created p => intro hact; simp [createHotel] at hact
    | step hr hstep ih => exact fun hact' => hotelStep_preserves hstep ih hact'

/-- An incomplete hotel profile (no images yet). -/
def profileC : HotelProfileData :=
  { name := "Lakeview", city := "Pokhara", address := "Lakeside 6",
    has_images := true, has_room_types := true, has_amenities := true,
    policies := some { cancellation_policy := "free", payment_policy := "cash" } }

/-- Witness for C2: starting from creation with a complete profile, request
approval then approve; the resulting state is active, reachable, and has
`approval_requested` set, via the invariant. -/
theorem hotel_activation_requires_approval_request_witness :
    (createHotel profileC).is_active = false
  ∧ HotelReachable (approveHotel (requestApproval (createHotel profileC)).2).2
  ∧ (approveHotel (requestApproval (createHotel profileC)).2).2.is_active = true
  ∧ (approveHotel (requestApproval (createHotel profileC)).2).2.approval_requested = true := by
  have hreach : HotelReachable (approveHotel (requestApproval (createHotel profileC)).2).2 :=
    HotelReachable.step
      (HotelReachable.step (HotelReachable.created profileC)
        (HotelStep.requestStep (createHotel profileC)))
      (HotelStep.approveStep (requestApproval (createHotel profileC)).2)
  have hactive : (approveHotel (requestApproval (createHotel profileC)).2).2.is_active = true := by
    decide
  exact ⟨rfl, hreach, hactive,
    hotel_activation_requires_approval_request.2.2.2 _ hreach hactive⟩

/-! ## C7 -/

/-- C7: on an inactive hotel, the request-approval operation fails with the
computed `missing` list exactly when some checklist section is incomplete,
and succeeds (setting `approval_requested`, attempting the notification
email on a fresh request) exactly when every section is present; and each
section name appears in the `missing` list precisely when that section is
absent. -/
theorem request_approval_checklist (h : Hotel) (hact : h.is_active = false) :
    (hotelComplete h = false →
        requestApproval h = (.incomplete (get_hotel_missing_sections h), h)
      ∧ get_hotel_missing_sections h ≠ [])
  ∧ (hotelComplete h = true →
        get_hotel_missing_sections h = []
      ∧ (requestApproval h).2.approval_requested = true
      ∧ (h.approval_requested = false →
          requestApproval h = (.submitted true, { h with approval_requested := true }))
      ∧ (h.approval_requested = true → requestApproval h = (.submitted false, h)))
  ∧ ("Hotel Details" ∈ get_hotel_missing_sections h ↔ hotelDetailsComplete h = false)
  ∧ ("Images" ∈ get_hotel_missing_sections h ↔ h.has_images = false)
  ∧ ("Rooms" ∈ get_hotel_missing_sections h ↔ h.has_room_types = false)
  ∧ ("Amenities" ∈ get_hotel_missing_sections h ↔ h.has_amenities = false)
  ∧ ("Policies" ∈ get_hotel_missing_sections h ↔ policiesComplete h = false) := by
  have hactn : ¬(h.is_active = true) := by simp [hact]
  refine ⟨?_, ?_, ?_⟩
  · intro hcomp
    have hne : get_hotel_missing_sections h ≠ [] := by
      intro hnil
      rw [(missing_sections_nil_iff h).1 hnil] at hcomp
      cases hcomp
    unfold requestApproval
    rw [if_neg hactn]
    dsimp only
    rw [if_pos hne]
    exact ⟨rfl, hne⟩
  · intro hcomp
    have hnil : get_hotel_missing_sections h = [] := (missing_sections_nil_iff h).2 hcomp
    have hnn : ¬(get_hotel_missing_sections h ≠ []) := by simp [hnil]
    refine ⟨hnil, ?_, ?_, ?_⟩
    · unfold requestApproval
      rw [if_neg hactn]
      dsimp only
      rw [if_neg hnn]
      by_cases hreq : h.approval_requested = true
      · rw [if_neg (by simp [hreq])]
        exact hreq
      · rw [if_pos (by simpa using hreq)]
    · intro hreqF
      unfold requestApproval
      rw [if_neg hactn]
      dsimp only
      rw [if_neg hnn, if_pos hreqF]
    · intro hreqT
      unfold requestApproval
      rw [if_neg hactn]
      dsimp only
      rw [if_neg hnn, if_neg (by simp [hreqT])]
  · rw [missing_sections_eq h]
    by_cases hd : hotelDetailsComplete h = true <;>
      by_cases hi : h.has_images = true <;>
      by_cases hr : h.has_room_types = true <;>
      by_cases ha : h.has_amenities = true <;>
      by_cases hp : policiesComplete h = true <;>
      simp_all

/-- A hotel with an empty city and no images, not yet requested. -/
def hotelD : Hotel :=
  { name := "Lakeview", city := " ", address := "Lakeside 6",
    has_images := false, has_room_types := true, has_amenities := true,
    policies := some { cancellation_policy := "free", payment_policy := "cash" },
    is_active := false, approval_requested := false }

/-- Witness for C7: the incomplete `hotelD` is rejected with the missing
list naming "Hotel Details" and "Images"; the complete fresh
`createHotel profileC` request succeeds and sets the flag. -/
theorem request_approval_checklist_witness :
    hotelD.is_active = false
  ∧ hotelComplete hotelD = false
  ∧ requestApproval hotelD = (.incomplete (get_hotel_missing_sections hotelD), hotelD)
  ∧ get_hotel_missing_sections hotelD = ["Hotel Details", "Images"]
  ∧ (createHotel profileC).is_active = false
  ∧ hotelComplete (createHotel profileC) = true
  ∧ (createHotel profileC).approval_requested = false
  ∧ requestApproval (createHotel profileC) =
      (.submitted true, { createHotel profileC with approval_requested := true }) := by
  refine ⟨rfl, by decide, ?_, by decide, rfl, by decide, rfl, ?_⟩
  · exact ((request_approval_checklist hotelD rfl).1 (by decide)).1
  · exact ((request_approval_checklist (createHotel profileC) rfl).2.1 (by decide)).2.2.1 rfl

/-! ## C8 -/

/-- C8: the approval token round-trips within the 7-day window; a valid
signature older than 7 days unsigns to the distinct expired outcome; a
token whose MAC does not match unsigns to the distinct bad-signature
outcome; the three outcomes are pairwise distinct; and the approve view
maps the two failures to distinct response messages. -/
theorem approval_token_roundtrip (macFn : String → Nat → String) :
    (∀ hid t_sign now, now - t_sign ≤ 7 * 24 * 60 * 60 →
        TimestampSigner.unsign macFn (TimestampSigner.sign macFn hid t_sign)
          now (7 * 24 * 60 * 60) = .ok hid)
  ∧ (∀ hid t_sign now, 7 * 24 * 60 * 60 < now - t_sign →
        TimestampSigner.unsign macFn (TimestampSigner.sign macFn hid t_sign)
          now (7 * 24 * 60 * 60) = .expired)
  ∧ (∀ token now, token.sig ≠ macFn token.value token.timestamp →
        TimestampSigner.unsign macFn token now (7 * 24 * 60 * 60) = .badSignature)
  ∧ UnsignResult.expired ≠ UnsignResult.badSignature
  ∧ (∀ hid, UnsignResult.ok hid ≠ .expired ∧ UnsignResult.ok hid ≠ .badSignature)
  ∧ (∀ token now hotels, token.sig = macFn token.value token.timestamp →
        7 * 24 * 60 * 60 < now - token.timestamp →
        (hotel_partner_approve_view macFn true token now hotels).1 =
          (400, "Approval link has expired."))
  ∧ (∀ token now hotels, token.sig ≠ macFn token.value token.timestamp →
        (hotel_partner_approve_view macFn true token now hotels).1 =
          (400, "Invalid approval link."))
  ∧ ("Approval link has expired." : String) ≠ "Invalid approval link." := by
  have hexp : ∀ (token : SignedToken) (now : Nat),
      token.sig = macFn token.value token.timestamp →
      7 * 24 * 60 * 60 < now - token.timestamp →
      TimestampSigner.unsign macFn token now (7 * 24 * 60 * 60) = .expired := by
    intro token now hsig hage
    unfold TimestampSigner.unsign
    rw [if_neg (by simp [hsig]), if_pos hage]
  have hbad : ∀ (token : SignedToken) (now : Nat),
      token.sig ≠ macFn token.value token.timestamp →
      TimestampSigner.unsign macFn token now (7 * 24 * 60 * 60) = .badSignature := by
    intro token now hsig
    unfold TimestampSigner.unsign
    rw [if_pos hsig]
  refine ⟨?_, ?_, hbad, by decide, fun hid => ⟨by simp, by simp⟩, ?_, ?_, by decide⟩
  · intro hid t_sign now hage
    unfold TimestampSigner.unsign TimestampSigner.sign
    rw [if_neg (by simp), if_neg (by simpa using hage)]
  · intro hid t_sign now hage
    exact hexp (TimestampSigner.sign macFn hid t_sign) now rfl hage
  · intro token now hotels hsig hage
    unfold hotel_partner_approve_view
    rw [if_neg (by simp), hexp token now hsig hage]
  · intro token now hotels hsig
    unfold hotel_partner_approve_view
    rw [if_neg (by simp), hbad token now hsig]

/-- Witness for C8 with a concrete MAC: round-trip at day three, expiry at
day eight, and a tampered token, each producing its distinct outcome. -/
theorem approval_token_roundtrip_witness :
    (259200 : Nat) - 0 ≤ 7 * 24 * 60 * 60
  ∧ TimestampSigner.unsign (fun v _ => v)
      (TimestampSigner.sign (fun v _ => v) "7" 0) 259200 (7 * 24 * 60 * 60) =
      .ok "7"
  ∧ 7 * 24 * 60 * 60 < (691200 : Nat) - 0
  ∧ TimestampSigner.unsign (fun v _ => v)
      (TimestampSigner.sign (fun v _ => v) "7" 0) 691200 (7 * 24 * 60 * 60) =
      .expired
  ∧ ({ value := "7", timestamp := 0, sig := "x" } : SignedToken).sig ≠
      (fun (v : String) (_ : Nat) => v) "7" 0
  ∧ TimestampSigner.unsign (fun v _ => v)
      { value := "7", timestamp := 0, sig := "x" } 259200 (7 * 24 * 60 * 60) =
      .badSignature := by
  have h := approval_token_roundtrip (fun v _ => v)
  exact ⟨by decide, h.1 "7" 0 259200 (by decide), by decide,
    h.2.1 "7" 0 691200 (by decide), by decide,
    h.2.2.1 { value := "7", timestamp := 0, sig := "x" } 259200 (by decide)⟩

end RS1500
